import Mathlib

/-!
Shallow embedding of the failure-policy dispatch and deduplication engine of
the bevy_mod_sysfail repository.

The repository holds two generations of the engine side by side:

* the v4 core in src/src/lib.rs (traits FailureMode and Failure with the
  deduplicating get_error method) together with the code generator in
  src/macros_impl/src/generate.rs, and the older v3 generator in
  src/macros_impl/src/lib.rs (ChainStyle);
* the v7 core in src/src/log.rs, src/src/log_simple.rs, src/src/emit.rs,
  src/src/ignore.rs, src/src/dedup.rs (trait Failure with handle_error per
  policy type, trait Dedup).

Durations (bevy_utils::Duration) are modelled as natural numbers of
nanoseconds; Duration addition and comparison on Nat match the Rust type.
HashMap values keyed by an ID with Hash + Eq are modelled by their lookup
function ID to Option Duration; HashMap::insert stores the value and returns
the previous one, which is exactly what the engine observes of the map.
Rust Result of unit and an error type is modelled as Except with a Unit ok
value; Option of unit as Option Unit.  Panics (Option::unwrap on None,
Iterator expect) are modelled by the error side of Except with the panic
message.  Dispatching a tracing event is modelled by returning the pair of
the level and the formatted message that is handed to the sink.
-/

namespace Sysfail

/-- Model of bevy_utils::Duration: a number of nanoseconds. -/
abbrev Duration := Nat

/-- Duration::from_secs. -/
def Duration.from_secs (s : Nat) : Duration := s * 1000000000

/-- Model of enum LogLevel (src/src/lib.rs, the v4 core). -/
inductive LogLevel
  | Silent
  | Trace
  | Debug
  | Info
  | Warn
  | Error
deriving DecidableEq

/-- Model of trait FailureMode (src/src/lib.rs): an error type epsilon with
log_level, cooldown (defaulting to one second), the dedup identity, and the
deprecated display method. -/
structure FailureMode (ε ID : Type) where
  log_level : ε → LogLevel
  cooldown : ε → Duration := fun _ => Duration.from_secs 1
  identify : ε → ID
  display : ε → Option String

/-- Model of the per-system error cache: LoggedErrors (src/src/logged_errors.rs)
wraps a HashMap from error ID to the Duration it was last inserted at; the v7
Log failure (src/src/log.rs) uses the same HashMap directly as a Local system
parameter.  The map is represented by its lookup function. -/
def LoggedErrors (ID : Type) := ID → Option Duration

/-- Model of HashMap::insert: stores v at key k and returns the previous value
at k together with the updated map. -/
def LoggedErrors.insert {ID : Type} [DecidableEq ID] (m : LoggedErrors ID)
    (k : ID) (v : Duration) : Option Duration × LoggedErrors ID :=
  (m k, fun j => if j = k then some v else m j)

/-- The empty map, the initial value of the Local / LoggedErrors parameter. -/
def LoggedErrors.empty {ID : Type} : LoggedErrors ID := fun _ => none

/-- Model of trait Failure (src/src/lib.rs): how a system return type rho is
classified into an optional error value of type epsilon. -/
structure Failure (ρ ε : Type) where
  failure : ρ → Option ε

/-- Model of impl Failure for Result of unit and T (src/src/lib.rs lines
253-259): failure is self.err(). -/
def resultFailure (ε : Type) : Failure (Except ε Unit) ε where
  failure := fun r => match r with
    | Except.ok _ => none
    | Except.error e => some e

/-- Model of impl Failure for Option of unit (src/src/lib.rs lines 260-266).
The source body ignores self and returns Some of the string "A none value"
for every input, the success value Some unit included. -/
def optionFailure : Failure (Option Unit) String where
  failure := fun _ => some "A none value"

/-- Model of Failure::get_error (src/src/lib.rs lines 241-251): classify self,
and if it is a failure, insert now at its identity into logged_errors (keeping
the previous timestamp as last_shown) and return the error exactly when
should_log holds, where the source computes
should_log as last_shown.map_or of true and of now < d + cooldown.
Returns the optional notified error and the cache afterwards. -/
def get_error {ρ ε ID : Type} (Fl : Failure ρ ε) (F : FailureMode ε ID)
    [DecidableEq ID] (self : ρ) (now : Duration)
    (logged_errors : LoggedErrors ID) : Option ε × LoggedErrors ID :=
  match Fl.failure self with
  | none => (none, logged_errors)
  | some error =>
    let cooldown := F.cooldown error
    let inserted := LoggedErrors.insert logged_errors (F.identify error) now
    let last_shown := inserted.1
    let should_log : Bool := match last_shown with
      | none => true
      | some d => decide (now < d + cooldown)
    (if should_log then some error else none, inserted.2)

/-- Model of impl FailureMode for the unit type (src/src/lib.rs lines
183-193): identity is the value itself, log_level is Silent, cooldown keeps
the one second default. -/
def unitFailureMode : FailureMode Unit Unit where
  log_level := fun _ => LogLevel.Silent
  identify := fun u => u
  display := fun _ => none

/-- Model of impl FailureMode for static str (src/src/lib.rs lines 194-206):
identity is the string itself, log_level is Warn. -/
def strFailureMode : FailureMode String String where
  log_level := fun _ => LogLevel.Warn
  identify := fun s => s
  display := fun s => some s

/-- Model of impl FailureMode for Box of dyn Error (src/src/lib.rs lines
207-218): the boxed error type is opaque, given here as a type with a Display
formatter; ID is the unit type and identify returns the fixed unit value. -/
def boxedFailureMode (ε : Type) (to_string : ε → String) :
    FailureMode ε Unit where
  log_level := fun _ => LogLevel.Warn
  identify := fun _ => ()
  display := fun e => some (to_string e)

/-- Model of impl FailureMode for anyhow::Error (src/src/lib.rs lines
219-230): ID is the unit type and identify returns the fixed unit value. -/
def anyhowFailureMode (ε : Type) (to_string : ε → String) :
    FailureMode ε Unit where
  log_level := fun _ => LogLevel.Warn
  identify := fun _ => ()
  display := fun e => some (to_string e)

/-- Model of trait Dedup (src/src/dedup.rs, the v7 core): a Display error
type with a cooldown (defaulting to one second) and a dedup identity. -/
structure Dedup (ε ID : Type) where
  to_string : ε → String
  cooldown : ε → Duration := fun _ => Duration.from_secs 1
  identify : ε → ID

/-- Model of impl Dedup for static str (src/src/dedup.rs): identity is the
string itself. -/
def strDedup : Dedup String String where
  to_string := fun s => s
  identify := fun s => s

/-- Model of impl Dedup for Box of dyn Error (src/src/dedup.rs): identify
returns the fixed unit value. -/
def boxedDedup (ε : Type) (to_string : ε → String) : Dedup ε Unit where
  to_string := to_string
  identify := fun _ => ()

/-- Model of impl Dedup for anyhow::Error (src/src/dedup.rs): identify
returns the fixed unit value. -/
def anyhowDedup (ε : Type) (to_string : ε → String) : Dedup ε Unit where
  to_string := to_string
  identify := fun _ => ()

/-- Model of tracing Level as used by the v7 core (src/src/log_levels.rs). -/
inductive Level
  | TRACE
  | DEBUG
  | INFO
  | WARN
  | ERROR
deriving DecidableEq

/-- The numeric value tracing uses to compare a Level against a LevelFilter:
OFF is 0, then ERROR 1, WARN 2, INFO 3, DEBUG 4, TRACE 5; a level passes a
filter f exactly when its value is at most f. -/
def Level.filter_val : Level → Nat
  | Level.ERROR => 1
  | Level.WARN => 2
  | Level.INFO => 3
  | Level.DEBUG => 4
  | Level.TRACE => 5

/-- Model of a tracing callsite: its metadata is reduced to the list of field
names of its field set, which is all the engine reads from it. -/
structure Callsite where
  fields : List String

/-- Model of the SystemParam types impl Failure for Log declares
(src/src/log.rs): a Time resource and a Local HashMap. -/
def Log.param : List String := ["SRes Time", "Local HashMap ID Duration"]

/-- Model of Log::handle_error (src/src/log.rs lines 55-77).  The source
inserts now at the identity of the error, computes should_log as
last_shown.map_or of true and of now < d + cooldown, and when it holds first
unwraps the callsite (a panic on None, modelled by the Except error side) and
only then consults the level filters; the dispatched event reads the first
field of the callsite field set (an empty set panics) and carries the Display
text of the error.  Returns the cache afterwards and the dispatched event, if
any, as a pair of the level and the message. -/
def Log.handle_error {ε ID : Type} (D : Dedup ε ID) [DecidableEq ID]
    (lvl : Level) (self0 : ε) (now : Duration) (logged : LoggedErrors ID)
    (callsite : Option Callsite) (static_max_level current_level_filter : Nat) :
    Except String (LoggedErrors ID × Option (Level × String)) :=
  let cooldown := D.cooldown self0
  let inserted := LoggedErrors.insert logged (D.identify self0) now
  let last_shown := inserted.1
  let should_log : Bool := match last_shown with
    | none => true
    | some d => decide (now < d + cooldown)
  if should_log then
    match callsite with
    | none => Except.error "unwrap on a None callsite"
    | some meta =>
      if Level.filter_val lvl ≤ static_max_level ∧
          Level.filter_val lvl ≤ current_level_filter then
        match meta.fields with
        | [] => Except.error "FieldSet corrupted"
        | _ :: _ => Except.ok (inserted.2, some (lvl, D.to_string self0))
      else Except.ok (inserted.2, none)
  else Except.ok (inserted.2, none)

/-- Model of LogSimply::handle_error (src/src/log_simple.rs lines 27-39): no
deduplication state at all; the callsite is unwrapped first (a panic on None,
modelled by the Except error side) and the level filters are consulted after
that.  Returns the dispatched event, if any. -/
def LogSimply.handle_error {ε : Type} (to_string : ε → String) (lvl : Level)
    (self0 : ε) (callsite : Option Callsite)
    (static_max_level current_level_filter : Nat) :
    Except String (Option (Level × String)) :=
  match callsite with
  | none => Except.error "unwrap on a None callsite"
  | some meta =>
    if Level.filter_val lvl ≤ static_max_level ∧
        Level.filter_val lvl ≤ current_level_filter then
      match meta.fields with
      | [] => Except.error "FieldSet corrupted"
      | _ :: _ => Except.ok (some (lvl, to_string self0))
    else Except.ok none

/-- Model of the SystemParam type impl Failure for Emit declares
(src/src/emit.rs): only an EventWriter, no clock and no cache. -/
def Emit.param : List String := ["EventWriter E"]

/-- Model of Emit::handle_error (src/src/emit.rs lines 14-22): send self.0 on
the event writer, modelled as the list of events sent so far. -/
def Emit.handle_error {ε : Type} (self0 : ε) (event_writer : List ε) :
    List ε :=
  event_writer ++ [self0]

/-- Model of the SystemParam type impl Failure for Ignore declares
(src/src/ignore.rs): the unit type, no auxiliary state at all. -/
def Ignore.param : List String := []

/-- Model of Ignore::handle_error (src/src/ignore.rs lines 12-18): the body
is empty, so the list of notifications it performs is empty. -/
def Ignore.handle_error {ε : Type} (_self0 : ε) : List (Level × String) := []

/-- Model of enum MacroLogLevel (src/macros_impl/src/generate.rs), the level
configured on the attribute: the five tracing levels, plus Silent (the
ignore configuration, or level silent) and Quick. -/
inductive ConfigLevel
  | trace
  | debug
  | info
  | warn
  | error
  | silent
  | quick
deriving DecidableEq

/-- Model of FnConfig::parse_level (src/macros_impl/src/generate.rs): maps
the level literal of a log level attribute to the configured level; any
other literal is a configuration error, modelled by none. -/
def parse_level (ident : String) : Option ConfigLevel :=
  if ident = "trace" then some ConfigLevel.trace
  else if ident = "debug" then some ConfigLevel.debug
  else if ident = "info" then some ConfigLevel.info
  else if ident = "warn" then some ConfigLevel.warn
  else if ident = "error" then some ConfigLevel.error
  else if ident = "silent" then some ConfigLevel.silent
  else none

/-- Model of the extra_params use in sysfail_inner
(src/macros_impl/src/generate.rs): the names of the auxiliary parameters
added to the generated system; none are added for the Quick and Silent
levels, otherwise a Time resource and a LoggedErrors Local are added. -/
def extra_params : ConfigLevel → List String
  | ConfigLevel.quick => []
  | ConfigLevel.silent => []
  | _ => ["__sysfail_time", "__sysfail_logged_errors"]

/-- Model of the handler log_error generates (src/macros_impl/src/generate.rs
lines 130-146), run on the result of the inner system: for Silent and Quick
it is let _ = result (no cache access, no logging); for the five tracing
levels it logs the error returned by get_error with the level macro of the
configured level.  Returns the cache afterwards and the list of emissions as
pairs of the configured level and the error. -/
def log_error {ρ ε ID : Type} (level : ConfigLevel) (Fl : Failure ρ ε)
    (F : FailureMode ε ID) [DecidableEq ID] (result : ρ) (now : Duration)
    (logged : LoggedErrors ID) : LoggedErrors ID × List (ConfigLevel × ε) :=
  match level with
  | ConfigLevel.silent => (logged, [])
  | ConfigLevel.quick => (logged, [])
  | l =>
    match get_error Fl F result now logged with
    | (some error, logged2) => (logged2, [(l, error)])
    | (none, logged2) => (logged2, [])

/-- Model of enum ChainStyle (src/macros_impl/src/lib.rs), the v3 generator:
either Log with an optional level override, or Ignore. -/
inductive ChainStyle
  | Log (set_level : Option LogLevel)
  | Ignore

/-- Model of ChainStyle::handler_inputs (src/macros_impl/src/lib.rs): the
extra system parameters of the generated system; empty for Ignore and for
Log with a Silent override, otherwise a Local HashMap and a Time resource. -/
def handler_inputs : ChainStyle → List String
  | ChainStyle.Ignore => []
  | ChainStyle.Log (some LogLevel.Silent) => []
  | ChainStyle.Log _ =>
    ["_last_error_occurence_bevy_mod_sysfail", "_time_bevy_mod_sysfail"]

/-- Model of the code ChainStyle::handler_body generates
(src/macros_impl/src/lib.rs lines 211-236): for Ignore or a Silent override,
let _ = result; otherwise, on a failure, call error.log() when show_again
holds of the stored timestamp (show_again is
last_show < current.saturating_sub cooldown, and Nat subtraction is exactly
saturating_sub), then insert the current time at the error identity.
Returns the cache afterwards and whether error.log() was called. -/
def handler_body {ρ ε ID : Type} (style : ChainStyle) (Fl : Failure ρ ε)
    (F : FailureMode ε ID) [DecidableEq ID] (result : ρ) (current : Duration)
    (last_occurences : LoggedErrors ID) : LoggedErrors ID × Bool :=
  match style with
  | ChainStyle.Ignore => (last_occurences, false)
  | ChainStyle.Log (some LogLevel.Silent) => (last_occurences, false)
  | ChainStyle.Log _ =>
    match Fl.failure result with
    | none => (last_occurences, false)
    | some error =>
      let error_id := F.identify error
      let logged : Bool := match last_occurences error_id with
        | none => true
        | some last_show =>
          decide (last_show < current - F.cooldown error)
      ((LoggedErrors.insert last_occurences error_id current).2, logged)

/-- A user failure mode over Nat error codes whose cooldown is
Duration::ZERO, as FailureMode::cooldown explicitly allows
(src/src/lib.rs lines 150-158). -/
def zeroCooldownMode : FailureMode Nat Nat where
  log_level := fun _ => LogLevel.Warn
  cooldown := fun _ => 0
  identify := fun e => e
  display := fun e => some (toString e)

/-- A cache that has seen the identity of the static str error "X" at
time 0. -/
def c1_cache : LoggedErrors String := fun k => if k = "X" then some 0 else none

/-- A callsite whose field set has the single field "message". -/
def c1_callsite : Callsite := { fields := ["message"] }

/-- A cache that has seen error identity 7 at time 5. -/
def c3_cache : LoggedErrors Nat := fun k => if k = 7 then some 5 else none

/-- C1: the dedup check of both cores is inverted with respect to the claim.
With identity "X", the default one second cooldown, and a previous timestamp
of 0, both Failure::get_error and Log::handle_error SUPPRESS the failure at
now = 2 s (which is at least the previous timestamp plus the cooldown, so the
claim and the cooldown doc comments require a notification) and NOTIFY at
now = 0.5 s (inside the cooldown window, where the claim requires
suppression): the source computes should_log as now < previous + cooldown
instead of the negation. -/
theorem c1_dedup_condition_inverted :
    (get_error (resultFailure String) strFailureMode (Except.error "X")
      (Duration.from_secs 2) c1_cache).1 = none
  ∧ (get_error (resultFailure String) strFailureMode (Except.error "X")
      500000000 c1_cache).1 = some "X"
  ∧ Except.map Prod.snd (Log.handle_error strDedup Level.WARN "X"
      (Duration.from_secs 2) c1_cache (some c1_callsite) 5 5) = Except.ok none
  ∧ Except.map Prod.snd (Log.handle_error strDedup Level.WARN "X"
      500000000 c1_cache (some c1_callsite) 5 5)
      = Except.ok (some (Level.WARN, "X")) :=
  ⟨rfl, rfl, rfl, rfl⟩

/-- C2: the success value of an Option returning system is treated as a
failure.  impl Failure for Option of unit ignores self, so failure of
Some unit is Some "A none value" rather than none; consequently get_error on
the success value notifies the canonical error and creates a cache entry at
its identity, against the success path purity the claim states. -/
theorem c2_success_option_treated_as_failure :
    optionFailure.failure (some ()) = some "A none value"
  ∧ (get_error optionFailure strFailureMode (some ()) 3
      (LoggedErrors.empty : LoggedErrors String)).1 = some "A none value"
  ∧ (get_error optionFailure strFailureMode (some ()) 3
      (LoggedErrors.empty : LoggedErrors String)).2 "A none value" = some 3 :=
  ⟨rfl, rfl, rfl⟩

/-- C3: with a zero cooldown the code does not always notify.  For an error
of identity 7 with cooldown Duration::ZERO and a previous occurrence at
time 5, get_error suppresses the repeat both at the same timestamp 5 and at
the later timestamp 6 (should_log is now < previous + 0, which never holds
for monotone time), and the v3 generated handler body also suppresses the
repeat at the identical timestamp; the claim and the cooldown doc comments
require every occurrence to notify. -/
theorem c3_zero_cooldown_not_renotified :
    zeroCooldownMode.cooldown 7 = 0
  ∧ (get_error (resultFailure Nat) zeroCooldownMode (Except.error 7) 5
      c3_cache).1 = none
  ∧ (get_error (resultFailure Nat) zeroCooldownMode (Except.error 7) 6
      c3_cache).1 = none
  ∧ (handler_body (ChainStyle.Log none) (resultFailure Nat) zeroCooldownMode
      (Except.error 7) 5 c3_cache).2 = false :=
  ⟨rfl, rfl, rfl, rfl⟩

/-- C5: under the Emit policy, handling a failure sends exactly the error
value itself on the event channel, the declared system parameters are only an
EventWriter (no clock, no cache), and no failure is ever suppressed:
processing any sequence of failures appends exactly that sequence to the
channel. -/
theorem c5_emit_forwards_exactly (ε : Type) (e : ε) (q es : List ε) :
    Emit.handle_error e q = q ++ [e]
  ∧ Emit.param = ["EventWriter E"]
  ∧ List.foldl (fun acc x => Emit.handle_error x acc) q es = q ++ es := by
  refine ⟨rfl, rfl, ?_⟩
  induction es generalizing q with
  | nil => simp
  | cons x xs ih =>
    rw [List.foldl_cons, ih]
    simp [Emit.handle_error]

/-- C6: a policy declaring no dependencies adds no auxiliary parameters and
touches nothing.  The v4 generator adds no extra parameters for the silent
level and its handler is let _ = result (cache returned untouched, no
emission); the v3 generator declares no handler inputs for Ignore and for a
Silent level override and its handler body leaves the cache unchanged and
never calls log; the runtime Ignore policy declares the unit SystemParam and
its handle_error performs no notification. -/
theorem c6_silent_policy_no_deps (ρ ε ID : Type) [DecidableEq ID]
    (Fl : Failure ρ ε) (F : FailureMode ε ID) (result : ρ) (now : Duration)
    (c : LoggedErrors ID) (e : ε) :
    extra_params ConfigLevel.silent = []
  ∧ handler_inputs ChainStyle.Ignore = []
  ∧ handler_inputs (ChainStyle.Log (some LogLevel.Silent)) = []
  ∧ Ignore.param = []
  ∧ log_error ConfigLevel.silent Fl F result now c = (c, [])
  ∧ handler_body ChainStyle.Ignore Fl F result now c = (c, false)
  ∧ handler_body (ChainStyle.Log (some LogLevel.Silent)) Fl F result now c
      = (c, false)
  ∧ Ignore.handle_error e = [] :=
  ⟨rfl, rfl, rfl, rfl, rfl, rfl, rfl, rfl⟩

/-- C7: a unit of work that signals failure by the absence result None is
classified into the fixed canonical payload "A none value", which is not the
empty string. -/
theorem c7_absence_canonical_payload :
    optionFailure.failure none = some "A none value"
  ∧ "A none value" ≠ "" :=
  ⟨rfl, by decide⟩

/-- C8: the built-in identity implementations.  For the unit type identify
returns the value itself and the severity is Silent; for static str errors
identify returns the string itself in both cores, so distinct strings have
distinct identities; for boxed opaque errors and anyhow errors identify
returns the fixed unit value in both cores, so all such errors share one
throttle key. -/
theorem c8_builtin_identities (ε : Type) (ts : ε → String) (a b : ε)
    (u : Unit) (s t : String) (hst : s ≠ t) :
    unitFailureMode.identify u = u
  ∧ unitFailureMode.log_level u = LogLevel.Silent
  ∧ strFailureMode.identify s = s
  ∧ strDedup.identify s = s
  ∧ strFailureMode.identify s ≠ strFailureMode.identify t
  ∧ (boxedFailureMode ε ts).identify a = ()
  ∧ (boxedFailureMode ε ts).identify a = (boxedFailureMode ε ts).identify b
  ∧ (anyhowFailureMode ε ts).identify a = (anyhowFailureMode ε ts).identify b
  ∧ (boxedDedup ε ts).identify a = (boxedDedup ε ts).identify b
  ∧ (anyhowDedup ε ts).identify a = (anyhowDedup ε ts).identify b := by
  refine ⟨rfl, rfl, rfl, rfl, ?_, rfl, rfl, rfl, rfl, rfl⟩
  exact hst

/-- Witness for C8 at the concrete strings "a" and "b". -/
theorem c8_builtin_identities_witness :
    strFailureMode.identify "a" ≠ strFailureMode.identify "b" :=
  (c8_builtin_identities Unit (fun _ => "e") () () () "a" "b"
    (by decide)).2.2.2.2.1

/-- C9: for each of the five loud levels, the handler the v4 generator emits
for log with a forced level logs each error that get_error lets through at
exactly the configured level, emits nothing when get_error suppresses (the
emission still goes through deduplication), and parse_level threads each
level literal to the matching configured level. -/
theorem c9_forced_level_applied (ρ ε ID : Type) [DecidableEq ID]
    (Fl : Failure ρ ε) (F : FailureMode ε ID) (result : ρ) (now : Duration)
    (logged : LoggedErrors ID) (L : ConfigLevel)
    (hL : L = ConfigLevel.trace ∨ L = ConfigLevel.debug ∨
      L = ConfigLevel.info ∨ L = ConfigLevel.warn ∨ L = ConfigLevel.error) :
    (∀ e logged2, get_error Fl F result now logged = (some e, logged2) →
      log_error L Fl F result now logged = (logged2, [(L, e)]))
  ∧ (∀ logged2, get_error Fl F result now logged = (none, logged2) →
      log_error L Fl F result now logged = (logged2, []))
  ∧ parse_level "trace" = some ConfigLevel.trace
  ∧ parse_level "debug" = some ConfigLevel.debug
  ∧ parse_level "info" = some ConfigLevel.info
  ∧ parse_level "warn" = some ConfigLevel.warn
  ∧ parse_level "error" = some ConfigLevel.error := by
  refine ⟨?_, ?_, rfl, rfl, rfl, rfl, rfl⟩
  · intro e logged2 h
    rcases hL with h1 | h1 | h1 | h1 | h1 <;> subst h1 <;> simp [log_error, h]
  · intro logged2 h
    rcases hL with h1 | h1 | h1 | h1 | h1 <;> subst h1 <;> simp [log_error, h]

/-- Witness for C9 at the warn level on the error "X" over the empty cache. -/
theorem c9_forced_level_applied_witness :
    log_error ConfigLevel.warn (resultFailure String) strFailureMode
      (Except.error "X") 0 (LoggedErrors.empty : LoggedErrors String)
      = ((get_error (resultFailure String) strFailureMode (Except.error "X") 0
          (LoggedErrors.empty : LoggedErrors String)).2,
         [(ConfigLevel.warn, "X")]) :=
  (c9_forced_level_applied (Except String Unit) String String
    (resultFailure String) strFailureMode (Except.error "X") 0
    LoggedErrors.empty ConfigLevel.warn
    (Or.inr (Or.inr (Or.inr (Or.inl rfl))))).1 "X" _ rfl

/-- C10: when a notification is due (the code's should_log condition holds),
Log::handle_error with a None callsite panics, and LogSimply::handle_error
with a None callsite always panics; in both, the unwrap happens before the
level filters are consulted, so the panic occurs for every value of the
static and current level filters, the filtering ones included. -/
theorem c10_none_callsite_panics (ε ID : Type) [DecidableEq ID]
    (D : Dedup ε ID) (lvl : Level) (e : ε) (now : Duration)
    (c : LoggedErrors ID) (static_max_level current_level_filter : Nat)
    (hdue : ∀ d, c (D.identify e) = some d → now < d + D.cooldown e) :
    Log.handle_error D lvl e now c none static_max_level current_level_filter
      = Except.error "unwrap on a None callsite"
  ∧ (∀ ts : ε → String,
      LogSimply.handle_error ts lvl e none static_max_level
        current_level_filter = Except.error "unwrap on a None callsite") := by
  constructor
  · unfold Log.handle_error
    rcases hc : c (D.identify e) with _ | d
    · simp [LoggedErrors.insert, hc]
    · have hd : decide (now < d + D.cooldown e) = true :=
        decide_eq_true (hdue d hc)
      simp [LoggedErrors.insert, hc, hd]
  · intro ts
    rfl

/-- Witness for C10: a trace level error over the empty cache with both
filters at 0 (the value of the OFF filter, under which a trace message would
be filtered out) still panics on a None callsite. -/
theorem c10_none_callsite_panics_witness :
    Log.handle_error strDedup Level.TRACE "X" 0
      (LoggedErrors.empty : LoggedErrors String) none 0 0
      = Except.error "unwrap on a None callsite"
  ∧ LogSimply.handle_error (fun s : String => s) Level.TRACE "X" none 0 0
      = Except.error "unwrap on a None callsite" := by
  have h := c10_none_callsite_panics String String strDedup Level.TRACE "X" 0
    LoggedErrors.empty 0 0 (fun d hd => nomatch hd)
  exact ⟨h.1, h.2 (fun s => s)⟩

/-- Helper for C4: the panic or dispatched event side of Log::handle_error
depends on the cache only through its value at the identity of the handled
error. -/
theorem log_handle_error_snd_congr {ε ID : Type} [DecidableEq ID]
    (D : Dedup ε ID) (lvl : Level) (e : ε) (now : Duration)
    (c c2 : LoggedErrors ID) (callsite : Option Callsite) (sm cf : Nat)
    (hsame : c2 (D.identify e) = c (D.identify e)) :
    Except.map Prod.snd (Log.handle_error D lvl e now c2 callsite sm cf)
      = Except.map Prod.snd (Log.handle_error D lvl e now c callsite sm cf) := by
  unfold Log.handle_error
  simp only [LoggedErrors.insert, hsame]
  cases hc : c (D.identify e) with
  | none =>
    cases callsite with
    | none => rfl
    | some meta =>
      by_cases hf : Level.filter_val lvl ≤ sm ∧ Level.filter_val lvl ≤ cf
      · cases hfs : meta.fields <;> simp [hc, hf, hfs, Except.map]
      · simp [hc, hf, Except.map]
  | some d =>
    cases hb : decide (now < d + D.cooldown e) with
    | false => simp [hc, hb, Except.map]
    | true =>
      cases callsite with
      | none => simp [hc, hb]
      | some meta =>
        by_cases hf : Level.filter_val lvl ≤ sm ∧ Level.filter_val lvl ≤ cf
        · cases hfs : meta.fields <;> simp [hc, hb, hf, hfs, Except.map]
        · simp [hc, hb, hf, Except.map]

/-- C4: both dedup checks update the cache to exactly the entry of the
handled error identity set to now (whether or not the notification was
suppressed), leave every other entry unchanged, and the notify decision for
an error reads only the entry at its own identity, so a failure with a
different identity never changes it, even at the same timestamp. -/
theorem c4_cache_tracks_latest (ρ ε ID : Type) [DecidableEq ID]
    (Fl : Failure ρ ε) (F : FailureMode ε ID) (D : Dedup ε ID)
    (self : ρ) (error : ε) (h : Fl.failure self = some error)
    (now : Duration) (cache : LoggedErrors ID) :
    ((get_error Fl F self now cache).2 (F.identify error) = some now)
  ∧ (∀ k, k ≠ F.identify error →
      (get_error Fl F self now cache).2 k = cache k)
  ∧ (∀ (self2 : ρ) (e2 : ε), Fl.failure self2 = some e2 →
      F.identify e2 ≠ F.identify error → ∀ now2,
      (get_error Fl F self2 now2 ((get_error Fl F self now cache).2)).1
        = (get_error Fl F self2 now2 cache).1)
  ∧ (∀ (lvl : Level) (cs : Callsite) (sm cf : Nat), cs.fields ≠ [] →
      ∃ ev, Log.handle_error D lvl error now cache (some cs) sm cf
          = Except.ok
              ((LoggedErrors.insert cache (D.identify error) now).2, ev)
        ∧ (LoggedErrors.insert cache (D.identify error) now).2
            (D.identify error) = some now
        ∧ (∀ k, k ≠ D.identify error →
            (LoggedErrors.insert cache (D.identify error) now).2 k = cache k))
  ∧ (∀ (e2 : ε), D.identify e2 ≠ D.identify error →
      ∀ (lvl : Level) (now2 : Duration) (callsite : Option Callsite)
        (sm cf : Nat),
      Except.map Prod.snd (Log.handle_error D lvl e2 now2
          ((LoggedErrors.insert cache (D.identify error) now).2)
          callsite sm cf)
        = Except.map Prod.snd
            (Log.handle_error D lvl e2 now2 cache callsite sm cf)) := by
  refine ⟨?_, ?_, ?_, ?_, ?_⟩
  · simp [get_error, h, LoggedErrors.insert]
  · intro k hk
    simp [get_error, h, LoggedErrors.insert, hk]
  · intro self2 e2 h2 hne now2
    have hx : (get_error Fl F self now cache).2 (F.identify e2)
        = cache (F.identify e2) := by
      simp [get_error, h, LoggedErrors.insert, hne]
    generalize hg : (get_error Fl F self now cache).2 = cmid at hx
    simp [get_error, h2, LoggedErrors.insert, hx]
  · intro lvl cs sm cf hcs
    have hpt1 : (LoggedErrors.insert cache (D.identify error) now).2
        (D.identify error) = some now := by
      simp [LoggedErrors.insert]
    have hpt2 : ∀ k, k ≠ D.identify error →
        (LoggedErrors.insert cache (D.identify error) now).2 k = cache k := by
      intro k hk
      simp [LoggedErrors.insert, hk]
    rcases hfs : cs.fields with _ | ⟨f, fs⟩
    · exact absurd hfs hcs
    · cases hc : cache (D.identify error) with
      | none =>
        by_cases hf : Level.filter_val lvl ≤ sm ∧ Level.filter_val lvl ≤ cf
        · exact ⟨some (lvl, D.to_string error),
            by simp [Log.handle_error, LoggedErrors.insert, hc, hfs, hf],
            hpt1, hpt2⟩
        · exact ⟨none,
            by simp [Log.handle_error, LoggedErrors.insert, hc, hf],
            hpt1, hpt2⟩
      | some d =>
        cases hb : decide (now < d + D.cooldown error) with
        | false =>
          exact ⟨none,
            by simp [Log.handle_error, LoggedErrors.insert, hc, hb],
            hpt1, hpt2⟩
        | true =>
          by_cases hf : Level.filter_val lvl ≤ sm ∧ Level.filter_val lvl ≤ cf
          · exact ⟨some (lvl, D.to_string error),
              by simp [Log.handle_error, LoggedErrors.insert, hc, hb, hfs, hf],
              hpt1, hpt2⟩
          · exact ⟨none,
              by simp [Log.handle_error, LoggedErrors.insert, hc, hb, hf],
              hpt1, hpt2⟩
  · intro e2 hne lvl now2 callsite sm cf
    have hsame : (LoggedErrors.insert cache (D.identify error) now).2
        (D.identify e2) = cache (D.identify e2) := by
      simp [LoggedErrors.insert, hne]
    exact log_handle_error_snd_congr D lvl e2 now2 cache _ callsite sm cf hsame

/-- Witness for C4: over the empty cache, handling the error "X" at time 3
stores 3 at "X" and leaves the entry at "Y" unchanged. -/
theorem c4_cache_tracks_latest_witness :
    (get_error (resultFailure String) strFailureMode (Except.error "X") 3
      (LoggedErrors.empty : LoggedErrors String)).2 "X" = some 3
  ∧ (get_error (resultFailure String) strFailureMode (Except.error "X") 3
      (LoggedErrors.empty : LoggedErrors String)).2 "Y"
      = (LoggedErrors.empty : LoggedErrors String) "Y" := by
  have h := c4_cache_tracks_latest (Except String Unit) String String
    (resultFailure String) strFailureMode strDedup (Except.error "X") "X" rfl 3
    LoggedErrors.empty
  exact ⟨h.1, h.2.1 "Y" (by decide)⟩

end Sysfail
